import Mathlib

/-!
Verification of the JTA Residential Healthcare API (FastAPI + DynamoDB backend).

The development shallowly embeds the request handlers of `app/main.py` and the
token service of `app/auth.py`:

* DynamoDB typed attribute values (`{'S': ...}` / `{'N': ...}`) become the
  inductive `AttrValue`; untyped Python values crossing the handlers become
  `PyVal` (strings, ints, floats-as-decimals, dicts).
* Python `str()` on ints and on the decimal-valued floats of this application is
  modelled by `renderInt` / `renderDec` (decimal rendering with a `.` for
  floats, none for ints); Python `int(s)` / `float(s)` on such strings by
  `parsePyInt` / `parsePyFloat`.
* Handler bodies become pure functions returning `Except String _`: an
  `Except.error` models the Python exception that the blanket handler turns
  into an HTTP 500, an `Except.ok` models the 200 response body.

Times are measured in minutes as natural numbers; a `datetime` instant and a
`timedelta` are both `Nat`.
-/

/-! ## Decimal digit machinery (Python `str` of nonnegative integers) -/

/-- Little-endian base-10 digits of `n`, with explicit fuel so that the
definition is structural and computable by the kernel.  `digitsLE f n` is the
digit list of `n` provided `n ≤ f`. -/
def digitsLE : Nat → Nat → List Nat
  | 0, _ => []
  | _ + 1, 0 => []
  | f + 1, n + 1 => (n + 1) % 10 :: digitsLE f ((n + 1) / 10)

/-- Value of a little-endian digit list. -/
def valLE : List Nat → Nat
  | [] => 0
  | d :: ds => d + 10 * valLE ds

/-- Value of a big-endian digit list (how a left-to-right parser accumulates). -/
def valBE (ds : List Nat) : Nat := ds.foldl (fun a d => 10 * a + d) 0

/-- Big-endian base-10 digits of `n`; `0` renders as the single digit `0`,
matching Python `str(0) = "0"`. -/
def natDigitsBE (n : Nat) : List Nat :=
  if n = 0 then [0] else (digitsLE n n).reverse

theorem valLE_digitsLE : ∀ f n, n ≤ f → valLE (digitsLE f n) = n := by
  intro f
  induction f with
  | zero => intro n hn; interval_cases n; rfl
  | succ f ih =>
    intro n hn
    match n with
    | 0 => rfl
    | n + 1 =>
      have hdiv : (n + 1) / 10 ≤ f := by
        have := Nat.div_lt_self (Nat.succ_pos n) (by norm_num : 1 < 10)
        omega
      simp only [digitsLE, valLE, ih _ hdiv]
      omega

theorem digitsLE_lt : ∀ f n d, d ∈ digitsLE f n → d < 10 := by
  intro f
  induction f with
  | zero => intro n d hd; simp [digitsLE] at hd
  | succ f ih =>
    intro n d hd
    match n with
    | 0 => simp [digitsLE] at hd
    | n + 1 =>
      simp only [digitsLE, List.mem_cons] at hd
      rcases hd with rfl | hd
      · exact Nat.mod_lt _ (by norm_num)
      · exact ih _ _ hd

theorem foldl_reverse_valLE (l : List Nat) :
    ∀ a, (l.reverse).foldl (fun x d => 10 * x + d) a = a * 10 ^ l.length + valLE l := by
  induction l with
  | nil => intro a; simp [valLE]
  | cons d tl ih =>
    intro a
    simp only [List.reverse_cons, List.foldl_append, List.foldl_cons, List.foldl_nil, ih,
      valLE, List.length_cons]
    ring

theorem valBE_natDigitsBE (n : Nat) : valBE (natDigitsBE n) = n := by
  by_cases h : n = 0
  · subst h; rfl
  · simp only [natDigitsBE, if_neg h, valBE, foldl_reverse_valLE, Nat.zero_mul, Nat.zero_add]
    exact valLE_digitsLE n n le_rfl

theorem natDigitsBE_ne_nil (n : Nat) : natDigitsBE n ≠ [] := by
  by_cases h : n = 0
  · subst h; simp [natDigitsBE]
  · simp only [natDigitsBE, if_neg h, ne_eq, List.reverse_eq_nil_iff]
    match n, h with
    | n + 1, _ => simp [digitsLE]

theorem natDigitsBE_lt (n : Nat) : ∀ d ∈ natDigitsBE n, d < 10 := by
  intro d hd
  by_cases h : n = 0
  · subst h; simp [natDigitsBE] at hd; omega
  · simp only [natDigitsBE, if_neg h, List.mem_reverse] at hd
    exact digitsLE_lt _ _ _ hd

/-! ## Characters of decimal renderings -/

/-- The character of a single decimal digit. -/
def charOfDigit (d : Nat) : Char := Char.ofNat (48 + d)

/-- Numeric value of a decimal digit character. -/
def digitVal (c : Char) : Nat := c.toNat - 48

theorem digitVal_charOfDigit {d : Nat} (h : d < 10) : digitVal (charOfDigit d) = d := by
  interval_cases d <;> rfl

theorem isDigit_charOfDigit {d : Nat} (h : d < 10) : (charOfDigit d).isDigit = true := by
  interval_cases d <;> rfl

theorem charOfDigit_ne_dash {d : Nat} (h : d < 10) : charOfDigit d ≠ '-' := by
  interval_cases d <;> decide

theorem charOfDigit_ne_dot {d : Nat} (h : d < 10) : charOfDigit d ≠ '.' := by
  interval_cases d <;> decide

/-- Characters of Python `str(n)` for a natural number. -/
def natChars (n : Nat) : List Char := (natDigitsBE n).map charOfDigit

theorem natChars_ne_nil (n : Nat) : natChars n ≠ [] := by
  simp [natChars, natDigitsBE_ne_nil n]

theorem natChars_all_isDigit (n : Nat) : ∀ c ∈ natChars n, c.isDigit = true := by
  intro c hc
  simp only [natChars, List.mem_map] at hc
  obtain ⟨d, hd, rfl⟩ := hc
  exact isDigit_charOfDigit (natDigitsBE_lt n d hd)

theorem valBE_digitVal_natChars (n : Nat) : valBE ((natChars n).map digitVal) = n := by
  have : (natChars n).map digitVal = natDigitsBE n := by
    simp only [natChars, List.map_map]
    refine List.map_congr_left ?_ |>.trans (List.map_id _)
    intro d hd
    exact digitVal_charOfDigit (natDigitsBE_lt n d hd)
  rw [this, valBE_natDigitsBE]

/-! ## Decimal values (the Python floats of this application)

The application stores rates, hours, wages and expense amounts: finite decimal
numbers.  Python `str()` on such a float prints the shortest decimal that round
trips, which for these values is a fixed-point string with a `.` (e.g. `15.5`,
`16.0`, `-0.25`).  We model such a float as a sign, an integer part and the
list of fraction digits. -/

structure Dec where
  neg : Bool
  intPart : Nat
  frac : List Nat
deriving DecidableEq

/-- A `Dec` is canonical when it has at least one fraction digit and every
fraction digit is an actual decimal digit — exactly the shapes that Python
`str(float)` produces for this application's values. -/
def decCanonical (d : Dec) : Bool := (!d.frac.isEmpty) && d.frac.all (· < 10)

/-- Characters of Python `str(x)` for the decimal float `x`. -/
def decChars (d : Dec) : List Char :=
  (if d.neg then ['-'] else []) ++ natChars d.intPart ++ '.' :: d.frac.map charOfDigit

/-- Python `str(x)` for the decimal float `x`. -/
def renderDec (d : Dec) : String := String.mk (decChars d)

/-- Characters of Python `str(n)` for an integer `n`. -/
def intChars (n : Int) : List Char :=
  if n < 0 then '-' :: natChars n.natAbs else natChars n.natAbs

/-- Python `str(n)` for an integer `n`. -/
def renderInt (n : Int) : String := String.mk (intChars n)

/-- Python `'.' in s` (the membership test `deserialize_dynamodb_item` uses on
the text of an `N`-tagged value, `app/main.py` line 73). -/
def hasDot (s : String) : Bool := s.data.any (fun c => c = '.')

/-- All characters are decimal digits and there is at least one. -/
def isDigits (cs : List Char) : Bool := (!cs.isEmpty) && cs.all Char.isDigit

/-- Python `int(s)`: an optional minus sign followed by decimal digits; any
other shape raises `ValueError`.  (The model covers the strings `str()`
produces; it omits Python's tolerance for `+`, whitespace and underscores,
none of which the program can ever feed to `int`.) -/
def parsePyInt (s : String) : Except String Int :=
  if s.data.head? = some '-' then
    if isDigits s.data.tail then .ok (-(valBE (s.data.tail.map digitVal) : Int))
    else .error "invalid literal for int() with base 10"
  else
    if isDigits s.data then .ok ((valBE (s.data.map digitVal) : Int))
    else .error "invalid literal for int() with base 10"

/-- Parse the body (sign stripped) of a fixed-point decimal string: integer
digits, a dot, fraction digits. -/
def parseFloatBody (neg : Bool) (body : List Char) : Except String Dec :=
  let ip := body.takeWhile Char.isDigit
  let rest := body.dropWhile Char.isDigit
  if rest.head? = some '.' ∧ ip.isEmpty = false ∧ isDigits rest.tail = true then
    .ok ⟨neg, valBE (ip.map digitVal), rest.tail.map digitVal⟩
  else .error "could not convert string to float"

/-- Python `float(s)` restricted to the fixed-point decimal strings `str()`
produces for this application's values (sign, integer digits, `.`, fraction
digits); anything else raises `ValueError`. -/
def parsePyFloat (s : String) : Except String Dec :=
  if s.data.head? = some '-' then parseFloatBody true s.data.tail
  else parseFloatBody false s.data

/-! ### Round-trip lemmas for the renderings -/

theorem natChars_isEmpty (n : Nat) : (natChars n).isEmpty = false := by
  cases hx : natChars n with
  | nil => exact absurd hx (natChars_ne_nil n)
  | cons c cs => rfl

theorem takeWhile_append_stop (p : Char → Bool) :
    ∀ (l1 : List Char) (c : Char) (l2 : List Char),
      (∀ x ∈ l1, p x = true) → p c = false →
      (l1 ++ c :: l2).takeWhile p = l1 ∧ (l1 ++ c :: l2).dropWhile p = c :: l2 := by
  intro l1
  induction l1 with
  | nil =>
    intro c l2 _ hc
    simp [List.takeWhile, List.dropWhile, hc]
  | cons x xs ih =>
    intro c l2 hall hc
    have hx : p x = true := hall x (List.mem_cons_self x xs)
    have := ih c l2 (fun y hy => hall y (List.mem_cons_of_mem x hy)) hc
    simp [List.takeWhile, List.dropWhile, hx, this.1, this.2]

theorem parsePyInt_renderInt (n : Int) : parsePyInt (renderInt n) = .ok n := by
  have hdata : (renderInt n).data = intChars n := rfl
  obtain ⟨d, ds, hds⟩ : ∃ d ds, natChars n.natAbs = d :: ds := by
    match h : natChars n.natAbs with
    | [] => exact absurd h (natChars_ne_nil _)
    | d :: ds => exact ⟨d, ds, rfl⟩
  obtain ⟨d0, hd0mem, hd0⟩ : ∃ d0 ∈ natDigitsBE n.natAbs, charOfDigit d0 = d := by
    have : d ∈ natChars n.natAbs := by rw [hds]; exact List.mem_cons_self _ _
    simpa [natChars, List.mem_map, eq_comm] using this
  have hd_ne : d ≠ '-' := hd0 ▸ charOfDigit_ne_dash (natDigitsBE_lt _ _ hd0mem)
  have hdigits : isDigits (natChars n.natAbs) = true := by
    simp only [isDigits, Bool.and_eq_true, Bool.not_eq_true', List.all_eq_true]
    exact ⟨natChars_isEmpty _, fun c hc => natChars_all_isDigit _ c hc⟩
  by_cases hn : n < 0
  · have hchars : intChars n = '-' :: natChars n.natAbs := by simp [intChars, hn]
    rw [parsePyInt, hdata, hchars]
    simp only [List.head?, List.tail, hdigits, if_pos rfl, if_true]
    rw [valBE_digitVal_natChars]
    congr 1
    omega
  · have hchars : intChars n = natChars n.natAbs := by simp [intChars, hn]
    rw [parsePyInt, hdata, hchars]
    have hhead : (natChars n.natAbs).head? ≠ some '-' := by
      rw [hds]; simpa using hd_ne
    rw [if_neg hhead, if_pos hdigits, valBE_digitVal_natChars]
    congr 1
    omega

theorem parsePyFloat_renderDec (d : Dec) (h : decCanonical d = true) :
    parsePyFloat (renderDec d) = .ok d := by
  obtain ⟨hfrac_ne, hfrac_lt⟩ : d.frac ≠ [] ∧ ∀ x ∈ d.frac, x < 10 := by
    simpa [decCanonical, Bool.and_eq_true, Bool.not_eq_true', List.isEmpty_iff,
      List.all_eq_true, decide_eq_true_iff] using h
  have hdata : (renderDec d).data = decChars d := rfl
  have hsplit := takeWhile_append_stop Char.isDigit (natChars d.intPart) '.'
      (d.frac.map charOfDigit) (natChars_all_isDigit d.intPart) (by decide)
  have hmap_ne : (d.frac.map charOfDigit).isEmpty = false := by
    cases hfx : d.frac with
    | nil => exact absurd hfx hfrac_ne
    | cons x xs => rfl
  have hmap_digits : isDigits (d.frac.map charOfDigit) = true := by
    simp only [isDigits, Bool.and_eq_true, Bool.not_eq_true', List.all_eq_true]
    refine ⟨hmap_ne, ?_⟩
    intro c hc
    simp only [List.mem_map] at hc
    obtain ⟨x, hx, rfl⟩ := hc
    exact isDigit_charOfDigit (hfrac_lt x hx)
  have hfv : (d.frac.map charOfDigit).map digitVal = d.frac := by
    rw [List.map_map]
    refine (List.map_congr_left ?_).trans (List.map_id _)
    intro x hx
    exact digitVal_charOfDigit (hfrac_lt x hx)
  have hbody : parseFloatBody d.neg (natChars d.intPart ++ '.' :: d.frac.map charOfDigit)
      = .ok d := by
    simp only [parseFloatBody, hsplit.1, hsplit.2, List.head?, List.tail]
    rw [if_pos ⟨trivial, natChars_isEmpty _, hmap_digits⟩, valBE_digitVal_natChars, hfv]
  by_cases hneg : d.neg
  · have hchars : decChars d = '-' :: (natChars d.intPart ++ '.' :: d.frac.map charOfDigit) := by
      simp [decChars, hneg]
    rw [parsePyFloat, hdata, hchars]
    simpa [hneg] using hbody
  · have hchars : decChars d = natChars d.intPart ++ '.' :: d.frac.map charOfDigit := by
      simp [decChars, hneg]
    obtain ⟨c, cs, hcs⟩ : ∃ c cs, natChars d.intPart = c :: cs := by
      match hx : natChars d.intPart with
      | [] => exact absurd hx (natChars_ne_nil _)
      | c :: cs => exact ⟨c, cs, rfl⟩
    have hc_ne : c ≠ '-' := by
      have : c ∈ natChars d.intPart := by rw [hcs]; exact List.mem_cons_self _ _
      simp only [natChars, List.mem_map] at this
      obtain ⟨x, hx, rfl⟩ := this
      exact charOfDigit_ne_dash (natDigitsBE_lt _ _ hx)
    rw [parsePyFloat, hdata, hchars, hcs]
    rw [if_neg (by simpa using hc_ne)]
    rw [← hcs]
    simpa [hneg] using hbody

theorem hasDot_renderDec (d : Dec) : hasDot (renderDec d) = true := by
  simp only [hasDot, renderDec, decChars]
  simp [List.any_eq_true]

theorem hasDot_renderInt (n : Int) : hasDot (renderInt n) = false := by
  have hnat : ∀ m : Nat, ∀ c ∈ natChars m, ¬(c = '.') := by
    intro m c hc
    simp only [natChars, List.mem_map] at hc
    obtain ⟨x, hx, rfl⟩ := hc
    exact charOfDigit_ne_dot (natDigitsBE_lt _ _ hx)
  have : ¬((intChars n).any (fun c => c = '.') = true) := by
    simp only [List.any_eq_true, decide_eq_true_eq, not_exists]
    intro c hc
    unfold intChars at hc
    obtain ⟨hmem, hdot⟩ := hc
    by_cases hn : n < 0
    · rw [if_pos hn] at hmem
      rcases List.mem_cons.mp hmem with rfl | hmem'
      · exact absurd hdot (by decide)
      · exact hnat _ _ hmem' hdot
    · rw [if_neg hn] at hmem
      exact hnat _ _ hmem hdot
  exact Bool.eq_false_iff.mpr this

/-! ## DynamoDB values and Python values

`AttrValue` is a DynamoDB typed attribute value as the handlers build it:
string-tagged, numeric-tagged, or any other of the store's tags (`B`, `BOOL`,
`M`, ...), which this program never constructs but may receive.  `PyVal` is an
untyped Python value flowing through the handlers: besides the scalars it has
the dictionary shape, because `get_item` hands the handler a dict mapping field
names to tagged-value dicts. -/

inductive PyVal where
  | vStr : String → PyVal
  | vInt : Int → PyVal
  | vFloat : Dec → PyVal
  | vDict : List (String × PyVal) → PyVal

/-- A Python scalar as typed by the Pydantic models (`str`, `int`, `float`). -/
inductive PyScalar where
  | pS : String → PyScalar
  | pI : Int → PyScalar
  | pF : Dec → PyScalar

def scalarToVal : PyScalar → PyVal
  | .pS s => .vStr s
  | .pI n => .vInt n
  | .pF d => .vFloat d

/-- Python `str()` on a scalar. -/
def pyStr : PyScalar → String
  | .pS s => s
  | .pI n => renderInt n
  | .pF d => renderDec d

/-- A DynamoDB typed attribute value. -/
inductive AttrValue where
  | S : String → AttrValue
  | N : String → AttrValue
  | other : String → String → AttrValue
deriving DecidableEq

/-- The tagged-value dict a stored `AttrValue` presents to Python code:
`{'S': text}`, `{'N': text}`, or `{tag: text}` for any other tag. -/
def attrToDict : AttrValue → List (String × PyVal)
  | .S s => [("S", .vStr s)]
  | .N s => [("N", .vStr s)]
  | .other tag payload => [(tag, .vStr payload)]

/-- Python dict lookup on a string-keyed dict (first binding wins; the dicts
this program builds have distinct keys). -/
def dictLookup : List (String × PyVal) → String → Option PyVal
  | [], _ => none
  | (k', v) :: rest, k => if k' = k then some v else dictLookup rest k

/-- `deserialize_dynamodb_item` (`app/main.py` lines 69–75): membership-tests
the dict for the key `'S'`, then `'N'`; an `N` text decodes with `float` when
it contains a dot and with `int` otherwise; any other dict raises
`ValueError("Unsupported DynamoDB data type")`.  Python `float`/`int` applied
to a non-string dict value raises as well. -/
def deserialize_dynamodb_item (item : List (String × PyVal)) : Except String PyVal :=
  match dictLookup item "S" with
  | some v => .ok v
  | none =>
    match dictLookup item "N" with
    | some (.vStr s) =>
        if hasDot s then (parsePyFloat s).map PyVal.vFloat
        else (parsePyInt s).map PyVal.vInt
    | some _ => .error "float() argument must be a string or a real number"
    | none => .error "Unsupported DynamoDB data type"

/-- The `{'S': v}` / `{'N': str(v)}` encoding the create routes apply to each
field (`create_staff` lines 144–150, `create_shift` lines 289–302,
`create_expense` lines 326–335): string fields become `S`-tagged, numeric
fields become `N`-tagged with their `str()` text. -/
def serializeScalar : PyScalar → AttrValue
  | .pS s => .S s
  | .pI n => .N (renderInt n)
  | .pF d => .N (renderDec d)

/-- A stored DynamoDB item as Python sees it: field name → tagged-value dict. -/
abbrev Item := List (String × PyVal)

/-- A scalar is canonical when its float part (if any) is a canonical decimal. -/
def scalarCanonical : PyScalar → Bool
  | .pF d => decCanonical d
  | _ => true

/-- Encode a record of typed fields the way the create routes do. -/
def encodeRecord (fields : List (String × PyScalar)) : List (String × Item) :=
  fields.map (fun f => (f.1, attrToDict (serializeScalar f.2)))

/-- Decode a dict of tagged values the way the update routes do
(`{k: deserialize_dynamodb_item(v) for k, v in attributes.items()}`,
`app/main.py` line 212); the first failing field raises. -/
def deserialize_attributes (attrs : List (String × Item)) :
    Except String (List (String × PyVal)) :=
  attrs.mapM (fun kv => (deserialize_dynamodb_item kv.2).map (fun x => (kv.1, x)))

theorem deserialize_serialize_scalar (v : PyScalar) (h : scalarCanonical v = true) :
    deserialize_dynamodb_item (attrToDict (serializeScalar v)) = .ok (scalarToVal v) := by
  match v with
  | .pS s => rfl
  | .pI n =>
    simp [serializeScalar, attrToDict, deserialize_dynamodb_item, dictLookup,
      scalarToVal, hasDot_renderInt n, parsePyInt_renderInt n, Except.map]
  | .pF d =>
    simp [serializeScalar, attrToDict, deserialize_dynamodb_item, dictLookup,
      scalarToVal, hasDot_renderDec d,
      parsePyFloat_renderDec d (by simpa [scalarCanonical] using h), Except.map]

/-! ## Resource handlers (`app/main.py`) -/

/-- The Staff Pydantic model (`app/main.py` lines 78–83). -/
structure Staff where
  staffID : String
  fullName : String
  employmentType : String
  jobTitle : String
  hourlyRate : Dec

/-- The item `create_staff` puts into the `Staff` table (`app/main.py` lines
144–150): each string field `{'S': value}`, the rate `{'N': str(value)}`.  The
stored item is what `get_item` later returns. -/
def create_staff_item (s : Staff) : Item :=
  [ ("staffID", .vDict [("S", .vStr s.staffID)]),
    ("fullName", .vDict [("S", .vStr s.fullName)]),
    ("employmentType", .vDict [("S", .vStr s.employmentType)]),
    ("jobTitle", .vDict [("S", .vStr s.jobTitle)]),
    ("hourlyRate", .vDict [("N", .vStr (renderDec s.hourlyRate))]) ]

/-- A DynamoDB table keyed by its partition key rendered as a single string
(for composite keys, the rendered pair). -/
abbrev Table := List (String × Item)

/-- `get_item` point lookup: `response.get('Item', None)`. -/
def dynamo_get_item (table : Table) (key : String) : Option Item :=
  match table with
  | [] => none
  | (k, it) :: rest => if k = key then some it else dynamo_get_item rest key

/-- `get_staff` (`app/main.py` lines 170–178): point lookup on
`{'staffID': {'S': staff_id}}`, then
`return deserialize_dynamodb_item(item) if item else {}` — `item` is falsy when
the key is absent (None) or the item dict is empty.  An `Except.error` is the
raised exception the blanket handler turns into HTTP 500; an `Except.ok` is the
200 response body. -/
def get_staff (table : Table) (staff_id : String) : Except String PyVal :=
  match dynamo_get_item table staff_id with
  | none => .ok (.vDict [])
  | some item => if item.isEmpty then .ok (.vDict []) else deserialize_dynamodb_item item

/-! ### Keys built by the Shift and Expense routes -/

/-- Key of `get_shift` (`app/main.py` line 247): note the quoted literal
`'shift_id'` where the path parameter was meant. -/
def get_shift_key (staff_id start_date : String) : List (String × AttrValue) :=
  [("shiftID", .S "shift_id"), ("startDate", .S start_date)]

/-- Key of `update_shift` (`app/main.py` line 273): same quoted literal. -/
def update_shift_key (staff_id start_date : String) : List (String × AttrValue) :=
  [("shiftID", .S "shift_id"), ("startDate", .S start_date)]

/-- Key of `delete_shift` (`app/main.py` line 314): same quoted literal. -/
def delete_shift_key (staff_id start_date : String) : List (String × AttrValue) :=
  [("shiftID", .S "shift_id"), ("startDate", .S start_date)]

/-- Key of `get_expense` (`app/main.py` line 358): built from both path
parameters. -/
def get_expense_key (expense_id date : String) : List (String × AttrValue) :=
  [("expenseID", .S expense_id), ("date", .S date)]

/-- Key of `update_expense` (`app/main.py` line 384). -/
def update_expense_key (expense_id date : String) : List (String × AttrValue) :=
  [("expenseID", .S expense_id), ("date", .S date)]

/-- Key of `delete_expense` (`app/main.py` line 400). -/
def delete_expense_key (expense_id date : String) : List (String × AttrValue) :=
  [("expenseID", .S expense_id), ("date", .S date)]

/-! ### The partial-update encoder shared by the three update routes -/

/-- `{'S': v} if isinstance(v, str) else {'N': str(v)}` (`app/main.py` lines
195, 270, 381): classification is by the Python runtime type of the value, not
by its content. -/
def encode_update_value : PyScalar → AttrValue
  | .pS s => .S s
  | .pI n => .N (renderInt n)
  | .pF d => .N (renderDec d)

/-- `"SET " + ", ".join(f"{k} = :{k}" for k in updates.keys())` (`app/main.py`
lines 194, 269, 380). -/
def build_update_expression (updates : List (String × String)) : String :=
  "SET " ++ String.intercalate ", " (updates.map (fun kv => kv.1 ++ " = :" ++ kv.1))

/-- `{f":{k}": {'S': v} if isinstance(v, str) else {'N': str(v)} for k, v in
updates.items()}` — under `UpdateStaffRequest.updates : Dict[str, str]`
(`app/main.py` lines 109–110) every value arrives as a Python `str`. -/
def build_expression_attribute_values (updates : List (String × String)) :
    List (String × AttrValue) :=
  updates.map (fun kv => (":" ++ kv.1, encode_update_value (.pS kv.2)))

/-- The `update_item` store call an update route issues. -/
structure UpdateCall where
  table : String
  key : List (String × AttrValue)
  updateExpression : String
  values : List (String × AttrValue)
deriving DecidableEq

/-- The store call `update_staff` builds (`app/main.py` lines 180–206). -/
def update_staff_call (staff_id : String) (updates : List (String × String)) : UpdateCall :=
  ⟨"Staff", [("staffID", .S staff_id)],
    build_update_expression updates, build_expression_attribute_values updates⟩

/-- The store call `update_shift` builds (`app/main.py` lines 255–277); the
key again carries the quoted literal `'shift_id'`. -/
def update_shift_call (staff_id start_date : String) (updates : List (String × String)) :
    UpdateCall :=
  ⟨"Shifts", update_shift_key staff_id start_date,
    build_update_expression updates, build_expression_attribute_values updates⟩

/-- The store call `update_expense` builds (`app/main.py` lines 366–388). -/
def update_expense_call (expense_id date : String) (updates : List (String × String)) :
    UpdateCall :=
  ⟨"Expenses", update_expense_key expense_id date,
    build_update_expression updates, build_expression_attribute_values updates⟩

/-- The pre-store phase of `update_staff`: the only check before the store call
is `isinstance(updates, dict)` (`app/main.py` lines 185–186), which always
holds under the `updates: Dict[str, str]` request model, so the handler
proceeds to the store call unconditionally — also for an empty mapping. -/
def update_staff_request (staff_id : String) (updates : List (String × String)) :
    Except String UpdateCall :=
  .ok (update_staff_call staff_id updates)

/-- The pre-store phase of `update_shift` (`app/main.py` lines 260–261). -/
def update_shift_request (staff_id start_date : String)
    (updates : List (String × String)) : Except String UpdateCall :=
  .ok (update_shift_call staff_id start_date updates)

/-- The pre-store phase of `update_expense` (`app/main.py` lines 371–372). -/
def update_expense_request (expense_id date : String)
    (updates : List (String × String)) : Except String UpdateCall :=
  .ok (update_expense_call expense_id date updates)

/-- Is an attribute value string-tagged? -/
def AttrValue.isS : AttrValue → Bool
  | .S _ => true
  | _ => false

/-! ## Token service (`app/auth.py`) -/

/-- A decoded JWT payload: optional subject claim and the absolute expiry
timestamp (minutes). -/
structure Payload where
  sub : Option String
  exp : Nat
deriving DecidableEq

/-- A signed token: the payload plus the key it was signed with (an HMAC
signature verifies exactly when the verifying key equals the signing key, so
the signature is modelled by the signing key itself). -/
structure SignedToken where
  payload : Payload
  signedWith : String
deriving DecidableEq

/-- `create_access_token` (`app/auth.py` lines 20–28).  `utc_now` is the
module-level global captured once at import time (`app/auth.py` line 7) — the
function never reads the clock at call time.  `expiresDelta` is the optional
`timedelta` in minutes; Python's `if expires_delta:` is falsy for `None` and
for a zero delta. -/
def create_access_token (utc_now : Nat) (secret : String) (sub : String)
    (expiresDelta : Option Nat) : SignedToken :=
  let expire :=
    match expiresDelta with
    | some d => if d ≠ 0 then utc_now + d else utc_now + 15
    | none => utc_now + 15
  ⟨⟨some sub, expire⟩, secret⟩

/-- `jwt.decode(token, SECRET_KEY, algorithms=[ALGORITHM])`: signature check
then expiry check against the current time (PyJWT raises
`ExpiredSignatureError` when the `exp` claim is not in the future). -/
def jwt_decode (tok : SignedToken) (secret : String) (now : Nat) :
    Except String Payload :=
  if tok.signedWith ≠ secret then .error "InvalidSignature"
  else if tok.payload.exp ≤ now then .error "ExpiredSignature"
  else .ok tok.payload

/-- `verify_token` (`app/auth.py` lines 30–43): any `PyJWTError` and a missing
subject claim both collapse to the 401 `credentials_exception`; otherwise the
subject is returned. -/
def verify_token (tok : SignedToken) (secret : String) (now : Nat) :
    Except String String :=
  match jwt_decode tok secret now with
  | .error _ => .error "Could not validate credentials"
  | .ok p =>
    match p.sub with
    | none => .error "Could not validate credentials"
    | some username => .ok username

/-- Process-wide configuration read from the environment. -/
structure Config where
  apiUsername : String
  apiPassword : String
  secretKey : String
  accessTokenExpireMinutes : Nat

/-- `login` (`app/main.py` lines 123–136): credential mismatch raises the 401
`HTTPException` before any token is created; on match the token is created
with subject = username and `expires_delta = timedelta(minutes =
ACCESS_TOKEN_EXPIRE_MINUTES)`. -/
def login (cfg : Config) (utc_now : Nat) (username password : String) :
    Except String SignedToken :=
  if username ≠ cfg.apiUsername ∨ password ≠ cfg.apiPassword then
    .error "Incorrect username or password"
  else
    .ok (create_access_token utc_now cfg.secretKey username
      (some cfg.accessTokenExpireMinutes))

/-! ## Spec-derived definitions used for comparison -/

/-- Modelled from the spec's words (§4.2 step 1): a value is "purely numeric"
when it parses as a number — as an integer or as a decimal float.  The spec's
Partial-Update Encoder contract classifies update values by this content test;
the definition exists to compare that contract with the code's
`isinstance`-based classification. -/
def spec_purely_numeric (s : String) : Bool :=
  match parsePyInt s, parsePyFloat s with
  | .ok _, _ => true
  | _, .ok _ => true
  | _, _ => false

/-! ## Claims -/

/-- C1: the claim says a get-by-key after create returns the decoded record
(`hourlyRate` as the float `15.5`) rather than failing.  The code is wrong:
`get_staff` feeds the whole item dict (keys `staffID`, `fullName`, ...) to
`deserialize_dynamodb_item`, which expects a single tagged value (keys `S` or
`N`), so the lookup of the freshly created record raises
`ValueError("Unsupported DynamoDB data type")` — HTTP 500.  The second
conjunct shows the decoder does decode the stored `hourlyRate` attribute to
the float `15.5` when applied at the granularity the code intended. -/
theorem get_staff_after_create_fails :
    get_staff [("S1", create_staff_item ⟨"S1", "Ann", "FT", "Nurse", ⟨false, 15, [5]⟩⟩)] "S1"
      = .error "Unsupported DynamoDB data type"
    ∧ deserialize_dynamodb_item [("N", .vStr (renderDec ⟨false, 15, [5]⟩))]
      = .ok (.vFloat ⟨false, 15, [5]⟩) :=
  ⟨rfl, rfl⟩

/-- C2: the claim says every get/update/delete on Shift and Expense keys the
store call by the caller-supplied path parameters.  The Expense routes do, but
all three Shift routes key `shiftID` by the quoted literal `"shift_id"`,
ignoring the caller's identifier: the key built for caller identifier `"ABC"`
is not the composite key of `"ABC"`. -/
theorem shift_key_uses_placeholder :
    (∀ a b : String,
      get_shift_key a b = [("shiftID", .S "shift_id"), ("startDate", .S b)])
    ∧ (∀ a b : String,
      update_shift_key a b = [("shiftID", .S "shift_id"), ("startDate", .S b)])
    ∧ (∀ a b : String,
      delete_shift_key a b = [("shiftID", .S "shift_id"), ("startDate", .S b)])
    ∧ (∀ e d : String,
      get_expense_key e d = [("expenseID", .S e), ("date", .S d)])
    ∧ (∀ e d : String,
      update_expense_key e d = [("expenseID", .S e), ("date", .S d)])
    ∧ (∀ e d : String,
      delete_expense_key e d = [("expenseID", .S e), ("date", .S d)])
    ∧ get_shift_key "ABC" "2024-01-01"
      ≠ [("shiftID", .S "ABC"), ("startDate", .S "2024-01-01")] :=
  ⟨fun _ _ => rfl, fun _ _ => rfl, fun _ _ => rfl, fun _ _ => rfl, fun _ _ => rfl,
    fun _ _ => rfl, by decide⟩

/-- C3 counterexample: the claim says the encoder classifies by content, with
purely numeric values encoded `{N: ...}`.  The value `"16.0"` is purely
numeric under the spec's classification, yet the encoder string-tags it,
because the code branches on `isinstance(v, str)` and every transported value
is a `str`. -/
theorem numeric_string_update_value_string_tagged :
    spec_purely_numeric "16.0" = true
    ∧ encode_update_value (.pS "16.0") = .S "16.0" :=
  ⟨rfl, rfl⟩

/-- C3 (amended): the encoder classifies by the value's Python runtime type,
not by content: a `str` value is always encoded `{S: value}` — even when the
text is purely numeric — and only a non-`str` value would be `{N: str(v)}`;
under the `Dict[str, str]` request model every expression attribute value is
therefore the string-tagged raw value. -/
theorem update_encoder_classifies_by_type :
    (∀ updates : List (String × String),
      build_expression_attribute_values updates
        = updates.map (fun kv => (":" ++ kv.1, AttrValue.S kv.2)))
    ∧ spec_purely_numeric "16.0" = true
    ∧ build_expression_attribute_values [("hourlyRate", "16.0")]
      = [(":hourlyRate", .S "16.0")] := by
  refine ⟨fun updates => ?_, rfl, rfl⟩
  simp [build_expression_attribute_values, encode_update_value]

/-- C4: the claim says the token expiry equals the current time at issuance
plus the ttl.  The code computes it from the module-level `utc_now` captured
at import time (`app/auth.py` line 7): with import at time 0 and ttl 15, a
token issued at time 100 still carries expiry 15, not 115.  The `none` branch
confirms the default of 15 minutes — also anchored to import time. -/
theorem token_exp_from_import_time :
    (create_access_token 0 "sec" "admin" (some 15)).payload.exp = 0 + 15
    ∧ (create_access_token 0 "sec" "admin" (some 15)).payload.exp ≠ 100 + 15
    ∧ (create_access_token 0 "sec" "admin" none).payload.exp = 0 + 15 :=
  ⟨rfl, by decide, rfl⟩

/-- C5: credentials equal to the configured pair make `login` issue a token
whose subject `verify_token` yields back (whenever verification happens before
the token's expiry); any other pair makes `login` fail with the 401
`Incorrect username or password` and no token. -/
theorem login_verify_subject (cfg : Config) (utcNow now : Nat) (u p : String) :
    (u = cfg.apiUsername → p = cfg.apiPassword →
      ∃ tok, login cfg utcNow u p = .ok tok
        ∧ tok.payload.sub = some u
        ∧ (now < tok.payload.exp → verify_token tok cfg.secretKey now = .ok u))
    ∧ (¬(u = cfg.apiUsername ∧ p = cfg.apiPassword) →
      login cfg utcNow u p = .error "Incorrect username or password") := by
  constructor
  · intro hu hp
    subst hu; subst hp
    refine ⟨create_access_token utcNow cfg.secretKey cfg.apiUsername
      (some cfg.accessTokenExpireMinutes), ?_, rfl, ?_⟩
    · simp [login]
    · intro hlt
      generalize hE : create_access_token utcNow cfg.secretKey cfg.apiUsername
        (some cfg.accessTokenExpireMinutes) = tok at hlt ⊢
      have hsig : tok.signedWith = cfg.secretKey := by rw [← hE]; rfl
      have hsub : tok.payload.sub = some cfg.apiUsername := by rw [← hE]; rfl
      simp [verify_token, jwt_decode, hsig, hsub, Nat.not_le.mpr hlt]
  · intro h
    have hne : u ≠ cfg.apiUsername ∨ p ≠ cfg.apiPassword := by tauto
    simp [login, hne]

/-- C5 witness at a concrete configuration. -/
theorem login_verify_subject_witness :
    (∃ tok, login ⟨"admin", "pw", "sec", 15⟩ 0 "admin" "pw" = .ok tok
      ∧ tok.payload.sub = some "admin"
      ∧ (0 < tok.payload.exp → verify_token tok "sec" 0 = .ok "admin"))
    ∧ login ⟨"admin", "pw", "sec", 15⟩ 0 "admin" "bad"
      = .error "Incorrect username or password" := by
  constructor
  · exact (login_verify_subject ⟨"admin", "pw", "sec", 15⟩ 0 0 "admin" "pw").1 rfl rfl
  · exact (login_verify_subject ⟨"admin", "pw", "sec", 15⟩ 0 0 "admin" "bad").2 (by decide)

/-- C6 counterexample: the claim says an empty updates mapping fails with
`InvalidInput` before any store call.  The handler's only pre-store check is
`isinstance(updates, dict)`, which an empty dict passes, so the store call is
issued with the malformed instruction `"SET "` and no attribute values — no
error is raised before the store. -/
theorem empty_updates_reach_store :
    update_staff_request "S1" []
      = .ok ⟨"Staff", [("staffID", .S "S1")], "SET ", []⟩ := by
  rfl

/-- C6 (amended): an empty updates mapping is not rejected before the store:
on all three update routes the handler builds the malformed instruction
`"SET "` with an empty expression-attribute-value map and issues the store
call; only the store's own rejection would surface (as the generic 500). -/
theorem empty_updates_store_calls :
    (∀ sid : String, update_staff_request sid []
      = .ok ⟨"Staff", [("staffID", .S sid)], "SET ", []⟩)
    ∧ (∀ a b : String, update_shift_request a b []
      = .ok ⟨"Shifts", [("shiftID", .S "shift_id"), ("startDate", .S b)], "SET ", []⟩)
    ∧ (∀ e d : String, update_expense_request e d []
      = .ok ⟨"Expenses", [("expenseID", .S e), ("date", .S d)], "SET ", []⟩) :=
  ⟨fun _ => rfl, fun _ _ => rfl, fun _ _ => rfl⟩

/-- C7: encoding a record of string/int/float fields with the store's tagged
form and decoding it back yields the original values — `N` texts without a
dot decode to integers, with a dot to floats, `S` to the original string —
and any other tag is the `UnsupportedType` decode failure. -/
theorem store_roundtrip :
    (∀ fields : List (String × PyScalar),
      (∀ f ∈ fields, scalarCanonical f.2 = true) →
      deserialize_attributes (encodeRecord fields)
        = .ok (fields.map (fun f => (f.1, scalarToVal f.2))))
    ∧ (∀ tag payload : String, tag ≠ "S" → tag ≠ "N" →
      deserialize_dynamodb_item [(tag, .vStr payload)]
        = .error "Unsupported DynamoDB data type") := by
  constructor
  · intro fields hcanon
    induction fields with
    | nil => rfl
    | cons f fs ih =>
      have hf : scalarCanonical f.2 = true := hcanon f (List.mem_cons_self f fs)
      have hfs : ∀ g ∈ fs, scalarCanonical g.2 = true :=
        fun g hg => hcanon g (List.mem_cons_of_mem f hg)
      simp only [encodeRecord, List.map_cons, deserialize_attributes,
        List.mapM_cons] at ih ⊢
      rw [deserialize_serialize_scalar f.2 hf]
      rw [ih hfs]
      rfl
  · intro tag payload htagS htagN
    simp [deserialize_dynamodb_item, dictLookup, htagS, htagN]

/-- C7 witness: a concrete three-field record and a concrete unsupported tag. -/
theorem store_roundtrip_witness :
    deserialize_attributes (encodeRecord
        [("fullName", .pS "Ann"), ("shifts", .pI 41), ("hourlyRate", .pF ⟨false, 15, [5]⟩)])
      = .ok [("fullName", .vStr "Ann"), ("shifts", .vInt 41),
          ("hourlyRate", .vFloat ⟨false, 15, [5]⟩)]
    ∧ deserialize_dynamodb_item [("BOOL", .vStr "true")]
      = .error "Unsupported DynamoDB data type" := by
  constructor
  · exact store_roundtrip.1
      [("fullName", .pS "Ann"), ("shifts", .pI 41), ("hourlyRate", .pF ⟨false, 15, [5]⟩)]
      (by decide)
  · exact store_roundtrip.2 "BOOL" "true" (by decide) (by decide)

/-- C8: a token whose embedded expiry is earlier than the current time fails
`verify_token` with the 401 `credentials_exception`, even when its signature
was produced with the very secret used for verification. -/
theorem expired_token_fails_verify (tok : SignedToken) (secret : String) (now : Nat)
    (hsig : tok.signedWith = secret) (hexp : tok.payload.exp < now) :
    verify_token tok secret now = .error "Could not validate credentials" := by
  simp [verify_token, jwt_decode, hsig, Nat.le_of_lt hexp]

/-- C8 witness: a validly signed token expired at 5, verified at 10. -/
theorem expired_token_fails_verify_witness :
    verify_token ⟨⟨some "admin", 5⟩, "sec"⟩ "sec" 10
      = .error "Could not validate credentials" :=
  expired_token_fails_verify ⟨⟨some "admin", 5⟩, "sec"⟩ "sec" 10 rfl (by decide)

/-- C9: a get-by-key on an absent key returns the empty object with HTTP 200:
`get_item` yields no item, the handler's truthiness test takes the `{}`
branch, and no exception is raised (so the generic 500 handler is not hit). -/
theorem get_absent_staff_empty (table : Table) (staff_id : String)
    (h : dynamo_get_item table staff_id = none) :
    get_staff table staff_id = .ok (.vDict []) := by
  simp [get_staff, h]

/-- C9 witness: `GET /jta/api/staff/unknown` on an empty table. -/
theorem get_absent_staff_empty_witness :
    dynamo_get_item [] "unknown" = none
    ∧ get_staff [] "unknown" = .ok (.vDict []) :=
  ⟨rfl, get_absent_staff_empty [] "unknown" rfl⟩

/-- C10: on all three update routes, every expression attribute value sent to
the store is string-tagged; the `{'N': str(v)}` branch of the encoder is
unreachable because the `Dict[str, str]` request model makes every value a
Python `str`. -/
theorem update_values_all_string_tagged (sid sd eid dt : String)
    (updates : List (String × String)) :
    (update_staff_call sid updates).values.all (fun kv => kv.2.isS) = true
    ∧ (update_shift_call sid sd updates).values.all (fun kv => kv.2.isS) = true
    ∧ (update_expense_call eid dt updates).values.all (fun kv => kv.2.isS) = true := by
  have h : (build_expression_attribute_values updates).all (fun kv => kv.2.isS) = true := by
    simp only [build_expression_attribute_values, List.all_eq_true]
    intro kv hkv
    obtain ⟨ab, hab, rfl⟩ := List.mem_map.mp hkv
    rfl
  exact ⟨h, h, h⟩
